import Mathlib

set_option autoImplicit false

/-!
Shallow embedding of the TEDxSDG tool registry and tool subsystem
(`src/tedxsdg/src/tedxsdg/tools/`): the configuration schemas
(`schemas/config_schemas.py`), the tool registry (`tool_registry.py`), the
CSV-backed lookup tools (`tedx_search_tool.py`, `tedx_slug_tool.py`,
`tedx_transcript_tool.py`), the scoring tools (`sdg_align_tool.py`,
`sustainability_impact_tool.py`), the web search tools
(`duckduckgo_search_tool.py`, `custom_tool.py`) and the query-extraction
helper (`utils.py`).

Python strings are Lean `String`s manipulated at the `List Char` level (the
library `String` operations are not kernel-reducible); Python floats are
modelled by exact decimal numbers (`Dec`), which agree with IEEE semantics on
every value exercised here (small decimal literals and products with small
naturals); Python exceptions are an explicit `PyErr` error type threaded with
`Except`; Python dicts with string keys are insertion-ordered association
lists (`StrMap`), matching CPython's ordered-dict semantics.
-/

namespace TedxSDG

/-! ### Character and string primitives (Python `str.lower`, `str.strip`, `str.split`) -/

/-- Python `str.lower` on one character (ASCII case mapping; the dataset and
configuration strings in scope are ASCII). -/
def lowerChar (c : Char) : Char := c.toLower

/-- The characters Python `str.strip()` removes: space, tab, newline,
carriage return, vertical tab, form feed. -/
def isPySpace (c : Char) : Bool :=
  c = ' ' || c = '\t' || c = '\n' || c = '\r' || c.val = 11 || c.val = 12

/-- Drop leading and trailing Python whitespace from a character list. -/
def trimChars (cs : List Char) : List Char :=
  ((cs.dropWhile isPySpace).reverse.dropWhile isPySpace).reverse

/-- Python `s.lower()`. -/
def pyLower (s : String) : String := ⟨s.data.map lowerChar⟩

/-- Python `s.strip()`. -/
def pyStrip (s : String) : String := ⟨trimChars s.data⟩

/-- Split a character list at every occurrence of `sep`, Python
`str.split(sep)` semantics: splitting the empty string yields `[""]`. -/
def splitOnChar (sep : Char) : List Char → List (List Char)
  | [] => [[]]
  | c :: cs =>
    let r := splitOnChar sep cs
    if c = sep then [] :: r
    else
      match r with
      | h :: t => (c :: h) :: t
      | [] => [[c]]

/-- Python `s.split(sep)` for a one-character separator. -/
def pySplit (sep : Char) (s : String) : List String :=
  (splitOnChar sep s.data).map (fun cs => ⟨cs⟩)

/-- `needle` occurs verbatim inside `hay` (Python `needle in hay`). -/
abbrev strContains (hay needle : String) : Prop := needle.data <:+: hay.data

/-! ### Decimal numbers, modelling the Python floats that occur here

A `Dec` denotes `man / 10 ^ exp`. All floats this subsystem produces are
decimal-exact and small (CSV `score_weight` values times a row's metric
count), on which this model agrees with Python float arithmetic, comparison
and `str()` formatting. -/

structure Dec where
  man : Int
  exp : Nat
  deriving DecidableEq, Repr

/-- Multiply a `Dec` by a natural number (Python `float * int`,
here `score_weight * len(relevant_metrics)`). -/
def Dec.mulNat (d : Dec) (n : Nat) : Dec := ⟨d.man * n, d.exp⟩

/-- Python `d > 0` for a `Dec` (the denominator `10 ^ exp` is positive). -/
def Dec.isPos (d : Dec) : Bool := 0 < d.man

/-- Numeric value of a digit list (most significant first). -/
def digitsVal (cs : List Char) : Nat :=
  cs.foldl (fun a c => a * 10 + (c.toNat - 48)) 0

/-- Python `float(s)` on the string fragment this code base exercises:
optional whitespace, an optional sign, and a plain decimal literal
(`"2"`, `"2.5"`, `".5"`, `"3."`). Anything else — in particular every
non-numeric `score_weight` value — fails, as `float()` raises `ValueError`.
(Exponent, `inf`/`nan` and underscore forms do not occur in the data in
scope and are not modelled.) -/
def pyFloat? (s : String) : Option Dec :=
  let cs := trimChars s.data
  let sgn : Int := match cs with
    | '-' :: _ => -1
    | _ => 1
  let body : List Char := match cs with
    | '+' :: rest => rest
    | '-' :: rest => rest
    | rest => rest
  match splitOnChar '.' body with
  | [ds] =>
    if ds ≠ [] ∧ ds.all Char.isDigit then some ⟨sgn * digitsVal ds, 0⟩ else none
  | [is, fs] =>
    if (is ≠ [] ∨ fs ≠ []) ∧ is.all Char.isDigit ∧ fs.all Char.isDigit then
      some ⟨sgn * (digitsVal is * 10 ^ fs.length + digitsVal fs), fs.length⟩
    else none
  | _ => none

/-- Remove factors of ten shared by mantissa and exponent, so that
`decRepr` prints the shortest decimal form (as Python `str(float)` does
on decimal-exact values). -/
def decNorm : Int → Nat → Dec
  | m, 0 => ⟨m, 0⟩
  | m, e + 1 => if m % 10 = 0 then decNorm (m / 10) e else ⟨m, e + 1⟩

/-- Python `str()` of the float a `Dec` denotes: `"6.0"`, `"4.0"`, `"2.5"`.
Exact on the decimal-exact, exponent-free values that arise here. -/
def decRepr (d : Dec) : String :=
  let n := decNorm d.man d.exp
  let sign : String := if n.man < 0 then "-" else ""
  let digits := toString n.man.natAbs
  if n.exp = 0 then sign ++ digits ++ ".0"
  else
    let ds := digits.data
    if ds.length ≤ n.exp then
      sign ++ "0." ++ ⟨List.replicate (n.exp - ds.length) '0'⟩ ++ digits
    else
      sign ++ ⟨ds.take (ds.length - n.exp)⟩ ++ "." ++ ⟨ds.drop (ds.length - n.exp)⟩

/-! ### Python values, truthiness and `str()` -/

/-- A Python value as this subsystem passes them around: strings, numbers
(ints are `Dec` with `exp = 0`), booleans, `None`, string-keyed dicts and
lists. -/
inductive PyVal where
  | str (s : String)
  | num (d : Dec)
  | pyBool (b : Bool)
  | pyNone
  | dict (d : List (String × PyVal))
  | list (l : List PyVal)

/-- Python truthiness (`bool(v)`). -/
def pyTruthy : PyVal → Bool
  | .str s => s ≠ ""
  | .num d => d.man ≠ 0
  | .pyBool b => b
  | .pyNone => false
  | .dict d => !d.isEmpty
  | .list l => !l.isEmpty

/-- Python `str(v)`. For dicts and lists only the fact that the rendering is
neither empty nor the word `none`/`null` matters to the code in scope, so
their element rendering is abbreviated. -/
def pyStr : PyVal → String
  | .str s => s
  | .num d => if d.exp = 0 then toString d.man else decRepr d
  | .pyBool b => if b then "True" else "False"
  | .pyNone => "None"
  | .dict _ => "\x7b...\x7d"
  | .list _ => "[...]"

/-! ### String-keyed maps (Python dicts, insertion-ordered) -/

/-- A Python dict with string keys: an insertion-ordered association list. -/
abbrev StrMap (α : Type) := List (String × α)

/-- Python `m[k]` as an option (`None` when absent). -/
def smFind? {α : Type} : StrMap α → String → Option α
  | [], _ => none
  | (k', v) :: rest, k => if k' == k then some v else smFind? rest k

/-- Python `m.get(k, dflt)`. -/
def smFindD {α : Type} (m : StrMap α) (k : String) (dflt : α) : α :=
  (smFind? m k).getD dflt

/-- Python `m[k] = v`: replace in place when the key exists (keeping its
position, as CPython dicts do), append otherwise. -/
def smInsert {α : Type} : StrMap α → String → α → StrMap α
  | [], k, v => [(k, v)]
  | (k', v') :: rest, k, v =>
    if k' == k then (k, v) :: rest else (k', v') :: smInsert rest k v

/-- A CSV row as `csv.DictReader` yields it: column name to cell text. -/
abbrev Record := StrMap String

/-- `row.get(column, dflt)` on a CSV row. -/
def rowGetD (r : Record) (k dflt : String) : String := smFindD r k dflt

/-! ### `utils.py`: `extract_query_string` -/

/-- Python `a or b`. -/
def pyOr (a b : PyVal) : PyVal := if pyTruthy a then a else b

/-- The value `extract_query_string` selects from a dict:
`d.get('search_query') or d.get('query') or d.get('q', '')`
(an absent key yields `None`; `or` skips falsy values). -/
def queryChain (d : StrMap PyVal) : PyVal :=
  pyOr (smFindD d "search_query" .pyNone)
    (pyOr (smFindD d "query" .pyNone) (smFindD d "q" (.str "")))

/-- `utils.extract_query_string`: a trimmed string for a string input; for a
dict the `or`-chain over `search_query`/`query`/`q`, trimmed when it is a
string and `""` otherwise; `str(input).strip()` for anything else. Total. -/
def extract_query_string (v : PyVal) : String :=
  match v with
  | .str s => pyStrip s
  | .dict d =>
    match queryChain d with
    | .str s => pyStrip s
    | _ => ""
  | _ => pyStrip (pyStr v)

/-- The behaviour claim C9 describes (not the code's): from a dict take the
value of the first PRESENT key among `search_query`, `query`, `q`, and
return `""` when that value is not a string. Stated separately so the code
can be compared against it. -/
def claimedExtractQueryString (v : PyVal) : String :=
  match v with
  | .str s => pyStrip s
  | .dict d =>
    match
      (match smFind? d "search_query" with
       | some x => some x
       | none =>
         match smFind? d "query" with
         | some x => some x
         | none => smFind? d "q") with
    | some (.str s) => pyStrip s
    | some _ => ""
    | none => ""
  | _ => pyStrip (pyStr v)

/-! ### Python exceptions -/

/-- The exceptions this subsystem raises. `validationError` stands for
pydantic's `ValidationError` (its message abbreviated to the failing field
or the failing validator's message). -/
inductive PyErr where
  | valueError (msg : String)
  | typeError (msg : String)
  | validationError (msg : String)
  | keyError (key : String)
  | attributeError (msg : String)
  | fileNotFoundError (msg : String)
  | exception (msg : String)
  deriving DecidableEq, Repr

/-! ### Scoring tools: `sdg_align_tool.py` and `sustainability_impact_tool.py` -/

/-- `record.get('metrics', '').split(';')`. -/
def metricsOf (details : Record) : List String :=
  pySplit ';' (rowGetD details "metrics" "")

/-- The parsed `score_weight` of a record:
`float(record.get('score_weight', 0))`, `none` when `float()` raises. -/
def scoreWeightDec (details : Record) : Option Dec :=
  match smFind? details "score_weight" with
  | none => some ⟨0, 0⟩
  | some s => pyFloat? s

/-- `SDGAlignTool._calculate_sdg_score`: `score_weight * len(relevant_metrics)`,
with the `except` branch returning `0.0` when `float()` fails. -/
def calcSdgScore (details : Record) (relevant_metrics : List String) : Dec :=
  match scoreWeightDec details with
  | some w => w.mulNat relevant_metrics.length
  | none => ⟨0, 0⟩

/-- `SustainabilityImpactTool._calculate_impact_score`: same computation and
fallback as `calcSdgScore` (the two files duplicate the function). -/
def calcImpactScore (details : Record) (relevant_metrics : List String) : Dec :=
  match scoreWeightDec details with
  | some w => w.mulNat relevant_metrics.length
  | none => ⟨0, 0⟩

/-- First-occurrence deduplication (the distinct elements of a Python set
built from a list; only membership and cardinality are observable here). -/
def dedupFirstAux (seen : List String) : List String → List String
  | [] => []
  | x :: xs =>
    if seen.contains x then dedupFirstAux seen xs
    else x :: dedupFirstAux (x :: seen) xs

/-- Python `set(a).intersection(set(b))` as a duplicate-free list. -/
def pySetInter (a b : List String) : List String :=
  (dedupFirstAux [] a).filter (fun x => b.contains x)

/-- One iteration of the loop in `SDGAlignTool._analyze`: skip the record
when `sdgs` is non-empty and does not contain its `sdg_id`; otherwise score
`score_weight * len(record['metrics'].split(';'))` and record it under
`record['sdg_name']` when positive. A raised `KeyError` aborts the loop. -/
def sdgStep (sdgs : List String) (acc : Except PyErr (StrMap Dec))
    (p : String × Record) : Except PyErr (StrMap Dec) :=
  match acc with
  | .error e => .error e
  | .ok results =>
    if !sdgs.isEmpty && !(sdgs.contains p.1) then .ok results
    else
      let relevant_metrics := metricsOf p.2
      let score := calcSdgScore p.2 relevant_metrics
      if score.isPos then
        match smFind? p.2 "sdg_name" with
        | none => .error (.keyError "sdg_name")
        | some name => .ok (smInsert results name score)
      else .ok results

/-- `SDGAlignTool._analyze`: fold `sdgStep` over the dataset in order. -/
def sdgAnalyze (sdg_data : StrMap Record) (sdgs : List String) :
    Except PyErr (StrMap Dec) :=
  sdg_data.foldl (sdgStep sdgs) (.ok [])

/-- Format an `_analyze` result as the `_run` report body:
`"\n".join(f"{name}: {score}")`. -/
def scoreReport (results : StrMap Dec) : String :=
  String.intercalate "\n" (results.map (fun p => p.1 ++ ": " ++ decRepr p.2))

/-- `SDGAlignTool._run`. -/
def sdgRun (sdg_data : StrMap Record) (idea : PyVal) (sdgs : List String) :
    Except PyErr String :=
  let idea_str : PyVal :=
    match idea with
    | .dict d => smFindD d "idea" (.str "")
    | v => .str (pyStr v)
  if !pyTruthy idea_str then
    .ok "Error: No valid idea provided for SDG alignment analysis."
  else
    let sdgs2 := (sdgs.filter (fun s => s ≠ "")).map pyStrip
    match sdgAnalyze sdg_data sdgs2 with
    | .error e => .error e
    | .ok results =>
      if results.isEmpty then .ok "No relevant SDG alignments found."
      else .ok ("Final Answer:\n" ++ scoreReport results)

/-- One iteration of the loop in `SustainabilityImpactTool._analyze`:
intersect the caller's metrics with the record's `metrics` field; when the
intersection is non-empty, score `score_weight * len(intersection)` and
record it under `record['impact_name']` when positive. -/
def impactStep (metrics : List String) (acc : Except PyErr (StrMap Dec))
    (p : String × Record) : Except PyErr (StrMap Dec) :=
  match acc with
  | .error e => .error e
  | .ok results =>
    let impact_metrics := metricsOf p.2
    let relevant_metrics := pySetInter metrics impact_metrics
    if relevant_metrics.isEmpty then .ok results
    else
      let score := calcImpactScore p.2 relevant_metrics
      if score.isPos then
        match smFind? p.2 "impact_name" with
        | none => .error (.keyError "impact_name")
        | some name => .ok (smInsert results name score)
      else .ok results

/-- `SustainabilityImpactTool._analyze`. -/
def impactAnalyze (impact_data : StrMap Record) (metrics : List String) :
    Except PyErr (StrMap Dec) :=
  impact_data.foldl (impactStep metrics) (.ok [])

/-- `SustainabilityImpactTool._run`. -/
def impactRun (impact_data : StrMap Record) (project : PyVal)
    (metrics : List String) : Except PyErr String :=
  let project_str := extract_query_string project
  if project_str == "" then
    .ok "Error: No valid project provided for sustainability impact assessment."
  else
    let metrics2 := (metrics.filter (fun m => pyStrip m ≠ "")).map pyStrip
    if metrics2.isEmpty then .ok "Error: No valid sustainability metrics provided."
    else
      match impactAnalyze impact_data metrics2 with
      | .error e => .error e
      | .ok results =>
        if results.isEmpty then .ok "No relevant sustainability impacts found."
        else .ok ("Final Answer:\n" ++ scoreReport results)

/-! ### CSV-backed lookup tools: `tedx_search_tool.py`, `tedx_slug_tool.py`,
`tedx_transcript_tool.py` -/

/-- The normalized key of a CSV row in the TEDx tools' `load_csv_data`:
`row.get('slug', '').strip().lower()`. -/
def normSlug (row : Record) : String := pyLower (pyStrip (rowGetD row "slug" ""))

/-- One iteration of the index-building loop shared by the three TEDx tools'
`load_csv_data` validators: insert the row under its normalized slug, skipping
rows whose normalized slug is empty. -/
def slugStep (idx : StrMap Record) (row : Record) : StrMap Record :=
  let slug := normSlug row
  if slug == "" then idx else smInsert idx slug row

/-- The index `load_csv_data` builds from the parsed CSV rows (identical in
`tedx_search_tool.py`, `tedx_slug_tool.py` and `tedx_transcript_tool.py`). -/
def buildSlugIndex (rows : List Record) : StrMap Record :=
  rows.foldl slugStep []

/-- The record block `TEDxSlugTool.run` formats for a hit. -/
def formatSlugEntry (entry : Record) : String :=
  "Title: " ++ rowGetD entry "title" "No Title" ++
  "\nDescription: " ++ rowGetD entry "description" "No Description" ++
  "\nURL: " ++ rowGetD entry "url" "No URL"

/-- `TEDxSlugTool.run`: lower-case the slug (the source applies `lower()`
only, no `strip()`), look it up directly, and return either the formatted
record or the no-data message built from the original slug. -/
def slugRun (csv_data : StrMap Record) (slug : String) : String :=
  let slug_lower := pyLower slug
  match smFind? csv_data slug_lower with
  | none => "No data found for slug '" ++ slug ++ "'. Please ensure the slug is correct."
  | some entry =>
    "Final Answer: TEDx Talk Details for slug '" ++ slug ++ "':\n" ++
      formatSlugEntry entry

structure LLMInnerConfig where
  model : String
  temperature : Dec
  deriving DecidableEq, Repr

structure LLMConfig where
  provider : String
  config : LLMInnerConfig
  deriving DecidableEq, Repr

structure EmbedderInnerConfig where
  model : String
  temperature : Dec
  deriving DecidableEq, Repr

structure EmbedderConfig where
  provider : String
  config : EmbedderInnerConfig
  deriving DecidableEq, Repr

/-- Validate a raw mapping into `LLMInnerConfig`: `model` is a required
non-empty-after-strip string; `temperature` defaults to `0` and must be
`>= 0`. -/
def validateLLMInner (v : PyVal) : Except PyErr LLMInnerConfig :=
  match v with
  | .dict d =>
    match smFind? d "model" with
    | some (.str m) =>
      if pyStrip m == "" then .error (.validationError "LLM model name cannot be empty.")
      else
        match smFind? d "temperature" with
        | none => .ok ⟨m, ⟨0, 0⟩⟩
        | some (.num t) =>
          if t.man < 0 then
            .error (.validationError "LLM temperature must be equal to or greater than 0.")
          else .ok ⟨m, t⟩
        | some _ => .error (.validationError "temperature: value is not a valid float")
    | some _ => .error (.validationError "model: value is not a valid string")
    | none => .error (.validationError "model: field required")
  | _ => .error (.validationError "config: value is not a valid dict")

/-- `LLMConfig.model_validate` on a raw mapping: required non-empty
`provider`, then the nested `config`. -/
def validateLLM (v : PyVal) : Except PyErr LLMConfig :=
  match v with
  | .dict d =>
    match smFind? d "provider" with
    | some (.str p) =>
      if pyStrip p == "" then .error (.validationError "LLM provider cannot be empty.")
      else
        match smFind? d "config" with
        | some cv =>
          match validateLLMInner cv with
          | .error e => .error e
          | .ok inner => .ok ⟨p, inner⟩
        | none => .error (.validationError "config: field required")
    | some _ => .error (.validationError "provider: value is not a valid string")
    | none => .error (.validationError "provider: field required")
  | _ => .error (.validationError "LLMConfig: value is not a valid dict")

/-- Validate a raw mapping into `EmbedderInnerConfig` (same shape as the LLM
inner config, with the embedder validators' messages). -/
def validateEmbedderInner (v : PyVal) : Except PyErr EmbedderInnerConfig :=
  match v with
  | .dict d =>
    match smFind? d "model" with
    | some (.str m) =>
      if pyStrip m == "" then
        .error (.validationError "Embedder model name cannot be empty.")
      else
        match smFind? d "temperature" with
        | none => .ok ⟨m, ⟨0, 0⟩⟩
        | some (.num t) =>
          if t.man < 0 then
            .error (.validationError "Embedder temperature must be equal to or greater than 0.")
          else .ok ⟨m, t⟩
        | some _ => .error (.validationError "temperature: value is not a valid float")
    | some _ => .error (.validationError "model: value is not a valid string")
    | none => .error (.validationError "model: field required")
  | _ => .error (.validationError "config: value is not a valid dict")

/-- `EmbedderConfig.model_validate` on a raw mapping. -/
def validateEmbedder (v : PyVal) : Except PyErr EmbedderConfig :=
  match v with
  | .dict d =>
    match smFind? d "provider" with
    | some (.str p) =>
      if pyStrip p == "" then
        .error (.validationError "Embedder provider cannot be empty.")
      else
        match smFind? d "config" with
        | some cv =>
          match validateEmbedderInner cv with
          | .error e => .error e
          | .ok inner => .ok ⟨p, inner⟩
        | none => .error (.validationError "config: field required")
    | some _ => .error (.validationError "provider: value is not a valid string")
    | none => .error (.validationError "provider: field required")
  | _ => .error (.validationError "EmbedderConfig: value is not a valid dict")

/-! ### `tool_registry.py`: the tool registry -/

/-- The closed set of tool classes `get_tool`'s `tool_mapping` knows. -/
inductive ToolClass where
  | tedxSearch
  | tedxSlug
  | tedxTranscript
  | sdgAlign
  | sustainabilityImpact
  | duckduckgo
  deriving DecidableEq, Repr

/-- `tool_mapping` in `ToolRegistry.get_tool`. -/
def toolMapping : String → Option ToolClass
  | "tedx_search" => some .tedxSearch
  | "tedx_slug" => some .tedxSlug
  | "tedx_transcript" => some .tedxTranscript
  | "sdg_align" => some .sdgAlign
  | "sustainability_impact" => some .sustainabilityImpact
  | "duckduckgo_search" => some .duckduckgo
  | _ => none

/-- A constructed tool instance. `id` is the instrumentation the spec's P1
suggests (a build counter value identifying the construction event, standing
for Python object identity); `index` is the tool's DatasetIndex, built once
at construction. The TEDx tools ignore the `llm_config`/`embedder_config`
keyword arguments (pydantic drops extra fields), so theirs are `none`. -/
structure Tool where
  id : Nat
  name : String
  data_path : Option String
  index : StrMap Record
  llm_config : Option LLMConfig
  embedder_config : Option EmbedderConfig
  deriving DecidableEq, Repr

/-- The file system the tools read CSV data from: path to parsed rows. -/
abbrev FS := StrMap (List Record)

/-- The normalized key of a row in the scoring tools' loaders:
`row.get(key, '').strip()` (no lower-casing, unlike the TEDx tools). -/
def buildIdIndex (key : String) (rows : List Record) : StrMap Record :=
  rows.foldl
    (fun idx row =>
      let k := pyStrip (rowGetD row key "")
      if k == "" then idx else smInsert idx k row)
    []

/-- Construct a TEDx CSV tool (`tedx_search`/`tedx_slug`/`tedx_transcript`):
the `load_csv_data` validator requires a truthy `data_path`, opens the file
(raising `FileNotFoundError` when absent) and builds the slug index. -/
def constructTedxTool (fs : FS) (id : Nat) (nm : String)
    (data_path : Option String) : Except PyErr Tool :=
  match data_path with
  | none => .error (.valueError "`data_path` must be provided in the configuration.")
  | some p =>
    if p == "" then
      .error (.valueError "`data_path` must be provided in the configuration.")
    else
      match smFind? fs p with
      | none => .error (.fileNotFoundError ("File not found: " ++ p))
      | some rows => .ok ⟨id, nm, some p, buildSlugIndex rows, none, none⟩

/-- Construct a scoring tool (`sdg_align`/`sustainability_impact`): store the
validated configs and build the id-keyed index from the CSV. -/
def constructScoringTool (fs : FS) (id : Nat) (nm key : String)
    (llm : LLMConfig) (emb : EmbedderConfig) (data_path : Option String) :
    Except PyErr Tool :=
  match data_path with
  | none => .error (.typeError "expected str, bytes or os.PathLike object, not NoneType")
  | some p =>
    match smFind? fs p with
    | none => .error (.fileNotFoundError ("File not found: " ++ p))
    | some rows => .ok ⟨id, nm, some p, buildIdIndex key rows, some llm, some emb⟩

/-- Dispatch construction over the tool class. `duckduckgo_search` cannot be
built through `_create_tool`'s keyword arguments (its pydantic model requires
`api_key` and `base_url`, which the registry never passes), so it raises a
`validationError`. -/
def constructTool (fs : FS) (id : Nat) (tc : ToolClass) (llm : LLMConfig)
    (emb : EmbedderConfig) (data_path : Option String) : Except PyErr Tool :=
  match tc with
  | .tedxSearch => constructTedxTool fs id "tedx_search" data_path
  | .tedxSlug => constructTedxTool fs id "tedx_slug" data_path
  | .tedxTranscript => constructTedxTool fs id "tedx_transcript" data_path
  | .sdgAlign => constructScoringTool fs id "sdg_align" "sdg_id" llm emb data_path
  | .sustainabilityImpact =>
    constructScoringTool fs id "sustainability_impact" "impact_id" llm emb data_path
  | .duckduckgo => .error (.validationError "api_key, base_url: field required")

/-- The registry state: the shared (already validated) configs, the parsed
`tools.yaml` mapping, the cache, and the instrumentation build counter
(incremented once per successful tool construction). -/
structure ToolRegistry where
  llm_config : LLMConfig
  embedder_config : EmbedderConfig
  tool_configs : StrMap (StrMap PyVal)
  tools : StrMap Tool
  buildCount : Nat

/-- An argument to `ToolRegistry.__init__`'s dynamically typed config
parameters: either a real config instance or any other Python value. -/
inductive ConfigArg (α : Type) where
  | inst (c : α)
  | raw (v : PyVal)

/-- Python truthiness of a config argument (an instance is always truthy). -/
def configTruthy {α : Type} : ConfigArg α → Bool
  | .inst _ => true
  | .raw v => pyTruthy v

/-- `ToolRegistry.__init__`: the falsiness check raises `ValueError`, the
`isinstance` checks raise `TypeError` — no pydantic validation runs here.
The `tools.yaml` load (`_load_tool_configs`) is represented by passing the
parsed mapping. The cache starts empty. -/
def ToolRegistry.make (llmArg : ConfigArg LLMConfig)
    (embArg : ConfigArg EmbedderConfig) (tool_configs : StrMap (StrMap PyVal)) :
    Except PyErr ToolRegistry :=
  if !configTruthy llmArg || !configTruthy embArg then
    .error (.valueError "Missing LLM configuration or Embedder configuration.")
  else
    match llmArg with
    | .raw _ => .error (.typeError "Invalid LLMConfig provided.")
    | .inst llm =>
      match embArg with
      | .raw _ => .error (.typeError "Invalid EmbedderConfig provided.")
      | .inst emb => .ok ⟨llm, emb, tool_configs, [], 0⟩

/-- `tool_config.get(k)` where both an absent key and a YAML `null` value
read as Python `None`. -/
def cfgGet (cfg : StrMap PyVal) (k : String) : Option PyVal :=
  match smFind? cfg k with
  | none => none
  | some .pyNone => none
  | some v => some v

/-- The `data_path` entry of a tool config as an optional string. -/
def cfgDataPath (cfg : StrMap PyVal) : Option String :=
  match cfgGet cfg "data_path" with
  | some (.str s) => some s
  | _ => none

/-- Python truthiness of the resolved `data_path`. -/
def dataPathTruthy : Option String → Bool
  | none => false
  | some s => s ≠ ""

/-- The tool names `_create_tool` requires a `data_path` for. -/
def requiresDataPath (tool_name : String) : Bool :=
  (["tedx_search", "tedx_slug", "tedx_transcript", "sdg_align",
    "sustainability_impact"] : List String).contains tool_name

/-- `ToolRegistry._create_tool`: resolve the tool's own config entry (missing
or empty entry raises), require tool-level `embedder_config` and `llm_config`
(no fallback to the registry-level configs), validate them with pydantic,
check `data_path` for dataset tools, then construct. -/
def createTool (fs : FS) (r : ToolRegistry) (tool_name : String)
    (tc : ToolClass) : Except PyErr Tool :=
  let tool_config := smFindD r.tool_configs tool_name []
  if tool_config.isEmpty then
    .error (.valueError ("Tool configuration for '" ++ tool_name ++
      "' not found in tools.yaml."))
  else
    match cfgGet tool_config "embedder_config" with
    | none =>
      .error (.valueError ("Missing required 'embedder_config' for tool '" ++
        tool_name ++ "'."))
    | some embedder_conf =>
      match cfgGet tool_config "llm_config" with
      | none =>
        .error (.valueError ("Missing required 'llm_config' for tool '" ++
          tool_name ++ "'."))
      | some llm_conf =>
        match validateEmbedder embedder_conf with
        | .error e => .error e
        | .ok emb =>
          match validateLLM llm_conf with
          | .error e => .error e
          | .ok llm =>
            let data_path := cfgDataPath tool_config
            if requiresDataPath tool_name && !dataPathTruthy data_path then
              .error (.valueError ("Missing data path for tool '" ++ tool_name ++ "'"))
            else constructTool fs r.buildCount tc llm emb data_path

/-- `ToolRegistry.get_tool`: return the cached instance when present;
otherwise resolve the class from the closed mapping (unknown name raises),
construct via `_create_tool`, cache on success, and re-raise on failure
leaving the registry unchanged. -/
def getTool (fs : FS) (r : ToolRegistry) (tool_name : String) :
    Except PyErr Tool × ToolRegistry :=
  match smFind? r.tools tool_name with
  | some t => (.ok t, r)
  | none =>
    match toolMapping tool_name with
    | none => (.error (.valueError ("Unknown tool: " ++ tool_name)), r)
    | some tc =>
      match createTool fs r tool_name tc with
      | .ok t =>
        (.ok t, { r with tools := smInsert r.tools tool_name t,
                         buildCount := r.buildCount + 1 })
      | .error e => (.error e, r)

/-! ### Shared concrete fixtures -/

/-- A validated shared LLM config, as the manager passes to the registry. -/
def exLLM : LLMConfig := ⟨"ollama", ⟨"llama3", ⟨0, 0⟩⟩⟩

/-- A validated shared embedder config. -/
def exEmb : EmbedderConfig := ⟨"ollama", ⟨"nomic-embed-text", ⟨0, 0⟩⟩⟩

/-- A raw (unvalidated) tool-level LLM config mapping. -/
def exLLMRaw : PyVal :=
  .dict [("provider", .str "ollama"), ("config", .dict [("model", .str "llama3")])]

/-- A raw tool-level embedder config mapping. -/
def exEmbRaw : PyVal :=
  .dict [("provider", .str "ollama"),
    ("config", .dict [("model", .str "nomic-embed-text")])]

/-- A CSV row of the TEDx dataset. -/
def exRow : Record :=
  [("slug", "abc"), ("title", "T1"), ("description", "D1"), ("url", "U1")]

/-- A file system holding one TEDx CSV file. -/
def exFS : FS := [("data/tedx.csv", [exRow])]

/-- A `tedx_search` tool config with both tool-level configs but no
`data_path`. -/
def cfgNoPath : StrMap PyVal :=
  [("llm_config", exLLMRaw), ("embedder_config", exEmbRaw)]

/-- The same tool config with `data_path` supplied. -/
def cfgFull : StrMap PyVal :=
  [("llm_config", exLLMRaw), ("embedder_config", exEmbRaw),
   ("data_path", .str "data/tedx.csv")]

/-- A registry whose `tedx_search` entry lacks `data_path`. -/
def regNoPath : ToolRegistry := ⟨exLLM, exEmb, [("tedx_search", cfgNoPath)], [], 0⟩

/-- The corrected registry configuration: `data_path` added. -/
def regFull : ToolRegistry := ⟨exLLM, exEmb, [("tedx_search", cfgFull)], [], 0⟩

/-- The tool `get_tool` builds from `regFull` (construction id 0). -/
def builtSearchTool : Tool :=
  ⟨0, "tedx_search", some "data/tedx.csv", [("abc", exRow)], none, none⟩

/-- `regFull` after the successful `get_tool("tedx_search")`. -/
def regFullAfter : ToolRegistry :=
  { regFull with tools := [("tedx_search", builtSearchTool)], buildCount := 1 }

/-- A registry whose `tedx_search` entry omits `llm_config` (though the
registry-level `exLLM` is present). -/
def regNoLlm : ToolRegistry :=
  ⟨exLLM, exEmb,
   [("tedx_search", [("embedder_config", exEmbRaw), ("data_path", .str "data/tedx.csv")])],
   [], 0⟩

/-- A raw LLM config mapping with `provider` but no `config.model`. -/
def llmRawNoModel : PyVal := .dict [("provider", .str "ollama")]

/-- A `sdg_align` tool config whose tool-level LLM config is missing
`model`. -/
def cfgBadLlm : StrMap PyVal :=
  [("embedder_config", exEmbRaw),
   ("llm_config", .dict [("provider", .str "ollama"), ("config", .dict [])]),
   ("data_path", .str "data/sdg.csv")]

/-- A registry carrying `cfgBadLlm` for `sdg_align`. -/
def regBadLlm : ToolRegistry := ⟨exLLM, exEmb, [("sdg_align", cfgBadLlm)], [], 0⟩

/-- The spec's P6 example record, keyed for the SDG dataset. -/
def sdgRecEx : Record :=
  [("sdg_id", "3"), ("sdg_name", "Good Health"), ("metrics", "a;b;c"),
   ("score_weight", "2")]

/-- The same example record, keyed for the impact dataset. -/
def impactRecEx : Record :=
  [("impact_id", "3"), ("impact_name", "Good Health"), ("metrics", "a;b;c"),
   ("score_weight", "2")]

/-- A record whose `score_weight` cannot be parsed as a number. -/
def badWeightRec : Record :=
  [("sdg_id", "9"), ("sdg_name", "Broken"), ("impact_name", "Broken"),
   ("metrics", "a;b"), ("score_weight", "n/a")]

/-! ### Map and fold helper lemmas -/

theorem smFind?_insert_self {α : Type} (m : StrMap α) (k : String) (v : α) :
    smFind? (smInsert m k v) k = some v := by
  induction m with
  | nil => simp [smInsert, smFind?]
  | cons p rest ih =>
    obtain ⟨a, b⟩ := p
    simp only [smInsert]
    by_cases h : a = k
    · subst h
      simp [smFind?]
    · rw [if_neg (by simp only [beq_iff_eq]; exact h)]
      simp only [smFind?]
      rw [if_neg (by simp only [beq_iff_eq]; exact h)]
      exact ih

theorem smFind?_insert_ne {α : Type} (m : StrMap α) (k k' : String) (v : α)
    (h : k' ≠ k) : smFind? (smInsert m k v) k' = smFind? m k' := by
  induction m with
  | nil =>
    simp only [smInsert, smFind?]
    rw [if_neg (by simp only [beq_iff_eq]; exact fun e => h e.symm)]
  | cons p rest ih =>
    obtain ⟨a, b⟩ := p
    simp only [smInsert]
    by_cases ha : a = k
    · subst ha
      rw [if_pos (by simp)]
      simp only [smFind?]
      rw [if_neg (by simp only [beq_iff_eq]; exact fun e => h e.symm),
        if_neg (by simp only [beq_iff_eq]; exact fun e => h e.symm)]
    · rw [if_neg (by simp only [beq_iff_eq]; exact ha)]
      simp only [smFind?]
      by_cases hk' : a = k'
      · subst hk'
        simp
      · rw [if_neg (by simp only [beq_iff_eq]; exact hk'),
          if_neg (by simp only [beq_iff_eq]; exact hk')]
        exact ih

/-- Dropping a fold element that every accumulator absorbs. -/
theorem foldl_skip_mid {α β : Type} (f : β → α → β) (x : α)
    (hx : ∀ b, f b x = b) (l1 l2 : List α) (init : β) :
    (l1 ++ x :: l2).foldl f init = (l1 ++ l2).foldl f init := by
  rw [List.foldl_append, List.foldl_append, List.foldl_cons, hx]

theorem smFind?_of_append {α : Type} (p : α → Bool) (l1 l2 : List α) :
    (l1 ++ l2).find? p =
      match l1.find? p with
      | some x => some x
      | none => l2.find? p := by
  induction l1 with
  | nil => simp
  | cons a rest ih =>
    by_cases h : p a
    · simp [List.find?, h]
    · simp only [List.cons_append, List.find?, h]
      exact ih

/-! ### Step-identity lemmas for the scoring loops -/

theorem sdgStep_skip (sdgs : List String) (k : String) (rec : Record)
    (h : (!sdgs.isEmpty && !(sdgs.contains k)) = true)
    (acc : Except PyErr (StrMap Dec)) : sdgStep sdgs acc (k, rec) = acc := by
  cases acc with
  | error e => rfl
  | ok results =>
    have h' : (!sdgs.isEmpty && !(sdgs.contains (k, rec).1)) = true := h
    simp only [sdgStep]
    rw [if_pos h']

theorem sdgStep_badWeight (sdgs : List String) (k : String) (rec : Record)
    (s : String) (h1 : smFind? rec "score_weight" = some s)
    (h2 : pyFloat? s = none) (acc : Except PyErr (StrMap Dec)) :
    sdgStep sdgs acc (k, rec) = acc := by
  cases acc with
  | error e => rfl
  | ok results =>
    simp only [sdgStep]
    split
    · rfl
    · simp [calcSdgScore, scoreWeightDec, h1, h2, Dec.isPos]

theorem impactStep_interEmpty (metrics : List String) (k : String)
    (rec : Record) (h : pySetInter metrics (metricsOf rec) = [])
    (acc : Except PyErr (StrMap Dec)) : impactStep metrics acc (k, rec) = acc := by
  cases acc with
  | error e => rfl
  | ok results => simp [impactStep, h]

theorem impactStep_badWeight (metrics : List String) (k : String)
    (rec : Record) (s : String) (h1 : smFind? rec "score_weight" = some s)
    (h2 : pyFloat? s = none) (acc : Except PyErr (StrMap Dec)) :
    impactStep metrics acc (k, rec) = acc := by
  cases acc with
  | error e => rfl
  | ok results =>
    simp only [impactStep]
    split
    · rfl
    · simp [calcImpactScore, scoreWeightDec, h1, h2, Dec.isPos]

theorem sdgAnalyze_drop_mid (sdgs : List String) (l1 l2 : StrMap Record)
    (k : String) (rec : Record)
    (hid : ∀ acc, sdgStep sdgs acc (k, rec) = acc) :
    sdgAnalyze (l1 ++ (k, rec) :: l2) sdgs = sdgAnalyze (l1 ++ l2) sdgs :=
  foldl_skip_mid (sdgStep sdgs) (k, rec) hid l1 l2 (.ok [])

theorem impactAnalyze_drop_mid (metrics : List String) (l1 l2 : StrMap Record)
    (k : String) (rec : Record)
    (hid : ∀ acc, impactStep metrics acc (k, rec) = acc) :
    impactAnalyze (l1 ++ (k, rec) :: l2) metrics = impactAnalyze (l1 ++ l2) metrics :=
  foldl_skip_mid (impactStep metrics) (k, rec) hid l1 l2 (.ok [])

theorem sdgRun_drop_mid (l1 l2 : StrMap Record) (k : String) (rec : Record)
    (idea : PyVal) (sdgs : List String)
    (hid : ∀ sdgs2 acc, sdgStep sdgs2 acc (k, rec) = acc) :
    sdgRun (l1 ++ (k, rec) :: l2) idea sdgs = sdgRun (l1 ++ l2) idea sdgs := by
  simp only [sdgRun]
  rw [sdgAnalyze_drop_mid _ l1 l2 k rec (hid _)]

theorem impactRun_drop_mid (l1 l2 : StrMap Record) (k : String) (rec : Record)
    (project : PyVal) (metrics : List String)
    (hid : ∀ metrics2 acc, impactStep metrics2 acc (k, rec) = acc) :
    impactRun (l1 ++ (k, rec) :: l2) project metrics =
      impactRun (l1 ++ l2) project metrics := by
  simp only [impactRun]
  rw [impactAnalyze_drop_mid _ l1 l2 k rec (hid _)]

/-! ### Lookup characterization of the slug-index build -/

theorem slugStep_find_empty (m : StrMap Record) (row : Record) :
    smFind? (slugStep m row) "" = smFind? m "" := by
  simp only [slugStep]
  split
  · rfl
  · rename_i h
    exact smFind?_insert_ne m _ "" row (fun e => h (beq_iff_eq.mpr e.symm))

theorem buildSlugIndex_from_find_empty (rows : List Record) (m : StrMap Record) :
    smFind? (rows.foldl slugStep m) "" = smFind? m "" := by
  induction rows generalizing m with
  | nil => rfl
  | cons row rest ih => rw [List.foldl_cons, ih, slugStep_find_empty]

theorem buildSlugIndex_from_find (rows : List Record) (m : StrMap Record)
    (k : String) (hk : k ≠ "") :
    smFind? (rows.foldl slugStep m) k =
      match rows.reverse.find? (fun row => normSlug row == k) with
      | some row => some row
      | none => smFind? m k := by
  induction rows generalizing m with
  | nil => rfl
  | cons row rest ih =>
    rw [List.foldl_cons, ih (slugStep m row), List.reverse_cons, smFind?_of_append]
    cases hfind : rest.reverse.find? (fun r => normSlug r == k) with
    | some r => simp [hfind]
    | none =>
      simp only [hfind]
      by_cases hp : (normSlug row == k) = true
      · have hone : List.find? (fun r => normSlug r == k) [row] = some row := by
          simp [List.find?, hp]
        rw [hone]
        have hpe : normSlug row = k := by simpa using hp
        simp only [slugStep, hpe]
        rw [if_neg (by simp only [beq_iff_eq]; exact hk)]
        exact smFind?_insert_self m k row
      · have hone : List.find? (fun r => normSlug r == k) [row] = none := by
          simp only [List.find?]
          rw [Bool.not_eq_true] at hp
          rw [hp]
        rw [hone]
        simp only [slugStep]
        by_cases hs : (normSlug row == "") = true
        · rw [if_pos hs]
        · rw [if_neg hs]
          exact smFind?_insert_ne m _ k row (fun e => hp (beq_iff_eq.mpr e.symm))

/-! ### The claims -/

/-- The first CSV row of claim C6's example (normalized slug `"abc"`). -/
def rowFirst : Record := [("slug", "abc"), ("title", "First")]

/-- The second CSV row of claim C6's example: its slug also normalizes
(trim + lower-case) to `"abc"`, with a different title. -/
def rowSecond : Record := [("slug", "ABC "), ("title", "Second")]

/-- C6: the TEDx tools' index build normalizes each row's `slug` by trimming
and lower-casing (`normSlug`), skips rows whose normalized key is empty, and
keeps the last row on duplicate keys: a lookup of `k` in the built index
returns the LAST row whose normalized slug is `k` (and nothing for the empty
key); in particular, of two rows whose slugs both normalize to `"abc"`, the
index maps `"abc"` to the second row. -/
theorem c6_index_last_write_wins :
    (∀ (rows : List Record) (k : String),
        smFind? (buildSlugIndex rows) k =
          if k = "" then none
          else rows.reverse.find? (fun row => normSlug row == k)) ∧
    buildSlugIndex [rowFirst, rowSecond] = [("abc", rowSecond)] ∧
    smFind? (buildSlugIndex [rowFirst, rowSecond]) "abc" = some rowSecond := by
  refine ⟨fun rows k => ?_, rfl, rfl⟩
  by_cases hk : k = ""
  · subst hk
    rw [if_pos rfl]
    exact buildSlugIndex_from_find_empty rows []
  · rw [if_neg hk]
    have h := buildSlugIndex_from_find rows [] k hk
    rw [buildSlugIndex] at *
    cases hfind : rows.reverse.find? (fun row => normSlug row == k) with
    | some r => rw [h, hfind]
    | none =>
      rw [h, hfind]
      rfl

/-- C10: a record whose `score_weight` does not parse as a float is scored
`0.0` by both scoring tools' `_calculate_*_score`, contributes nothing to
either report, and never makes `_run` raise or abort the scoring of the
remaining records: both runs on a dataset containing the malformed record
equal the runs on the dataset without it. -/
theorem c10_malformed_weight_is_soft (l1 l2 : StrMap Record) (k : String)
    (rec : Record) (s : String) (idea project : PyVal)
    (sdgs metrics : List String)
    (h1 : smFind? rec "score_weight" = some s) (h2 : pyFloat? s = none) :
    sdgRun (l1 ++ (k, rec) :: l2) idea sdgs = sdgRun (l1 ++ l2) idea sdgs ∧
    impactRun (l1 ++ (k, rec) :: l2) project metrics =
      impactRun (l1 ++ l2) project metrics ∧
    calcSdgScore rec (metricsOf rec) = ⟨0, 0⟩ ∧
    calcImpactScore rec (pySetInter metrics (metricsOf rec)) = ⟨0, 0⟩ := by
  refine ⟨?_, ?_, ?_, ?_⟩
  · exact sdgRun_drop_mid l1 l2 k rec idea sdgs
      (fun sdgs2 acc => sdgStep_badWeight sdgs2 k rec s h1 h2 acc)
  · exact impactRun_drop_mid l1 l2 k rec project metrics
      (fun metrics2 acc => impactStep_badWeight metrics2 k rec s h1 h2 acc)
  · simp [calcSdgScore, scoreWeightDec, h1, h2]
  · simp [calcImpactScore, scoreWeightDec, h1, h2]

/-- Witness for C10: a concrete dataset holding a record with
`score_weight = "n/a"` next to a well-formed record scores exactly as the
dataset without the malformed record. -/
theorem c10_witness :
    sdgRun [("9", badWeightRec), ("3", sdgRecEx)] (.str "x") ["3", "9"] =
      sdgRun [("3", sdgRecEx)] (.str "x") ["3", "9"] :=
  (c10_malformed_weight_is_soft [] [("3", sdgRecEx)] "9" badWeightRec "n/a"
    (.str "x") (.str "x") ["3", "9"] ["a"] rfl rfl).1

/-- C1 (amended): the metrics-intersection filtering and
`score_weight * |intersection|` scoring hold of SustainabilityImpact —
a record whose `metrics` do not intersect the tags contributes nothing, a
parsed weight `w` scores `w * len(relevant_metrics)`, and the spec's example
record scores 4 there — while SDGAlign instead filters by `sdg_id`
membership in the tag list and multiplies the weight by the number of ALL
the record's `;`-split metrics, so the example record under tags `["3"]`
scores 6. -/
theorem c1_scoring_semantics :
    (∀ (metrics : List String) (l1 l2 : StrMap Record) (k : String) (rec : Record),
        pySetInter metrics (metricsOf rec) = [] →
        impactAnalyze (l1 ++ (k, rec) :: l2) metrics = impactAnalyze (l1 ++ l2) metrics) ∧
    (∀ (rec : Record) (lst : List String) (s : String) (w : Dec),
        smFind? rec "score_weight" = some s → pyFloat? s = some w →
        calcImpactScore rec lst = w.mulNat lst.length) ∧
    (∀ (sdgs : List String) (l1 l2 : StrMap Record) (k : String) (rec : Record),
        sdgs.isEmpty = false → sdgs.contains k = false →
        sdgAnalyze (l1 ++ (k, rec) :: l2) sdgs = sdgAnalyze (l1 ++ l2) sdgs) ∧
    (∀ (rec : Record) (s : String) (w : Dec),
        smFind? rec "score_weight" = some s → pyFloat? s = some w →
        calcSdgScore rec (metricsOf rec) = w.mulNat (metricsOf rec).length) ∧
    impactRun [("3", impactRecEx)] (.str "x") ["a", "b"] =
      .ok "Final Answer:\nGood Health: 4.0" ∧
    sdgRun [("3", sdgRecEx)] (.str "x") ["3"] =
      .ok "Final Answer:\nGood Health: 6.0" := by
  refine ⟨?_, ?_, ?_, ?_, rfl, rfl⟩
  · intro metrics l1 l2 k rec h
    exact impactAnalyze_drop_mid metrics l1 l2 k rec
      (impactStep_interEmpty metrics k rec h)
  · intro rec lst s w h1 h2
    simp [calcImpactScore, scoreWeightDec, h1, h2]
  · intro sdgs l1 l2 k rec h1 h2
    exact sdgAnalyze_drop_mid sdgs l1 l2 k rec
      (sdgStep_skip sdgs k rec (by rw [h1, h2]; rfl))
  · intro rec s w h1 h2
    simp [calcSdgScore, scoreWeightDec, h1, h2]

/-- Counterexample to C1 as stated: on the spec's own example record
(`metrics "a;b;c"`, `score_weight "2"`) with input tags `["a", "b"]`,
SDGAlign does not report score 4 — it reports no alignment at all, because
its filter tests `sdg_id ∈ tags`, not metrics intersection. -/
theorem c1_counterexample :
    sdgRun [("3", sdgRecEx)] (.str "x") ["a", "b"] =
      .ok "No relevant SDG alignments found." ∧
    ¬ strContains "No relevant SDG alignments found." "Good Health: 4" :=
  ⟨rfl, by decide⟩

/-- Witness for C1: a record whose metrics are disjoint from the tags is
dropped from the SustainabilityImpact analysis. -/
theorem c1_witness :
    impactAnalyze [("9", impactRecEx)] ["z"] = impactAnalyze [] ["z"] :=
  c1_scoring_semantics.1 ["z"] [] [] "9" impactRecEx rfl

/-- `get_tool`'s cached branch: a cache hit returns the cached instance and
the unchanged registry. -/
theorem getTool_cached (fs : FS) (r : ToolRegistry) (n : String) (t : Tool)
    (h : smFind? r.tools n = some t) : getTool fs r n = (.ok t, r) := by
  unfold getTool
  rw [h]

/-- C4: `get_tool` memoizes. After a successful `get_tool(n)` the instance is
cached under `n`, a second call returns the identical instance and the
identical registry state (so no reconstruction and no second DatasetIndex
build — the build counter is unchanged), and no call ever removes or
replaces an existing cache entry (the cache only grows). -/
theorem c4_get_tool_memoizes :
    (∀ (fs : FS) (r : ToolRegistry) (n : String) (t : Tool) (r' : ToolRegistry),
        getTool fs r n = (.ok t, r') →
        getTool fs r' n = (.ok t, r') ∧ smFind? r'.tools n = some t) ∧
    (∀ (fs : FS) (r : ToolRegistry) (n : String) (res : Except PyErr Tool)
        (r' : ToolRegistry) (m : String) (u : Tool),
        getTool fs r n = (res, r') → smFind? r.tools m = some u →
        smFind? r'.tools m = some u) := by
  constructor
  · intro fs r n t r' h
    unfold getTool at h
    split at h
    · rename_i t0 hc
      injection h with h1 h2
      injection h1 with h1
      subst h1
      subst h2
      exact ⟨getTool_cached fs r n t0 hc, hc⟩
    · rename_i hc
      split at h
      · injection h with h1 h2
        exact Except.noConfusion h1
      · rename_i tc hm
        split at h
        · rename_i t0 hcr
          injection h with h1 h2
          injection h1 with h1
          subst h1
          subst h2
          exact ⟨getTool_cached fs _ n t0 (smFind?_insert_self r.tools n t0),
            smFind?_insert_self r.tools n t0⟩
        · rename_i e hcr
          injection h with h1 h2
          exact Except.noConfusion h1
  · intro fs r n res r' m u h hm
    unfold getTool at h
    split at h
    · rename_i t0 hc
      injection h with h1 h2
      subst h2
      exact hm
    · rename_i hc
      split at h
      · injection h with h1 h2
        subst h2
        exact hm
      · rename_i tc hmp
        split at h
        · rename_i t0 hcr
          injection h with h1 h2
          subst h2
          have hne : m ≠ n := by
            intro e
            subst e
            rw [hm] at hc
            exact Option.noConfusion hc
          show smFind? (smInsert r.tools n t0) m = some u
          rw [smFind?_insert_ne r.tools n m t0 hne]
          exact hm
        · rename_i e hcr
          injection h with h1 h2
          subst h2
          exact hm

/-- Witness for C4 at a concrete registry: after building `tedx_search`
once, a second `get_tool` call returns the same instance and state. -/
theorem c4_witness :
    getTool exFS regFullAfter "tedx_search" = (.ok builtSearchTool, regFullAfter) ∧
    smFind? regFullAfter.tools "tedx_search" = some builtSearchTool :=
  c4_get_tool_memoizes.1 exFS regFull "tedx_search" builtSearchTool regFullAfter rfl

/-- C5: a failing `get_tool` call (unknown name, missing tool config,
missing `data_path`, validation failure, missing file, ...) raises and leaves
the registry — in particular its cache — unchanged; concretely, a
`tedx_search` spec without `data_path` fails with the missing-data-path
`ValueError` and caches nothing, and the same call on the registry whose
configuration was corrected succeeds and caches the built tool. -/
theorem c5_failure_not_cached_retry_succeeds :
    (∀ (fs : FS) (r : ToolRegistry) (n : String) (e : PyErr) (r' : ToolRegistry),
        getTool fs r n = (.error e, r') → r' = r) ∧
    getTool exFS regNoPath "tedx_search" =
      (.error (.valueError "Missing data path for tool 'tedx_search'"), regNoPath) ∧
    getTool exFS regFull "tedx_search" = (.ok builtSearchTool, regFullAfter) ∧
    getTool exFS regNoPath "not_a_real_tool" =
      (.error (.valueError "Unknown tool: not_a_real_tool"), regNoPath) := by
  refine ⟨?_, rfl, rfl, rfl⟩
  intro fs r n e r' h
  unfold getTool at h
  split at h
  · injection h with h1 h2
    exact Except.noConfusion h1
  · split at h
    · injection h with h1 h2
      exact h2.symm
    · split at h
      · injection h with h1 h2
        exact Except.noConfusion h1
      · injection h with h1 h2
        exact h2.symm

/-- Witness for C5: the failing concrete call leaves the registry it was
given. -/
theorem c5_witness : (getTool exFS regNoPath "tedx_search").2 = regNoPath :=
  c5_failure_not_cached_retry_succeeds.1 exFS regNoPath "tedx_search"
    (.valueError "Missing data path for tool 'tedx_search'") regNoPath rfl

/-- C2 (amended): `_create_tool` performs no merge and no fallback — every
ToolSpec must carry its own `embedder_config` and `llm_config` (a missing or
null one raises `ValueError` naming the missing key, embedder checked
first), and the registry-level shared configs are never consulted during
tool construction (`_create_tool`'s result is independent of them). -/
theorem c2_no_registry_fallback :
    (∀ (fs : FS) (r : ToolRegistry) (n : String) (tc : ToolClass),
        (smFindD r.tool_configs n []).isEmpty = false →
        cfgGet (smFindD r.tool_configs n []) "embedder_config" = none →
        createTool fs r n tc =
          .error (.valueError ("Missing required 'embedder_config' for tool '" ++ n ++ "'."))) ∧
    (∀ (fs : FS) (r : ToolRegistry) (n : String) (tc : ToolClass) (ec : PyVal),
        (smFindD r.tool_configs n []).isEmpty = false →
        cfgGet (smFindD r.tool_configs n []) "embedder_config" = some ec →
        cfgGet (smFindD r.tool_configs n []) "llm_config" = none →
        createTool fs r n tc =
          .error (.valueError ("Missing required 'llm_config' for tool '" ++ n ++ "'."))) ∧
    (∀ (fs : FS) (n : String) (tc : ToolClass) (cfgs : StrMap (StrMap PyVal))
        (tools : StrMap Tool) (bc : Nat) (l1 l2 : LLMConfig)
        (e1 e2 : EmbedderConfig),
        createTool fs ⟨l1, e1, cfgs, tools, bc⟩ n tc =
          createTool fs ⟨l2, e2, cfgs, tools, bc⟩ n tc) := by
  refine ⟨?_, ?_, ?_⟩
  · intro fs r n tc h1 h2
    simp [createTool, h1, h2]
  · intro fs r n tc ec h1 h2 h3
    simp [createTool, h1, h2, h3]
  · intro fs n tc cfgs tools bc l1 l2 e1 e2
    rfl

/-- Counterexample to C2 as stated: a registry whose shared configs are
valid, holding a `tedx_search` spec with an `embedder_config` and a
`data_path` but no `llm_config`, does not fall back to the registry-level
LLM config — `get_tool` raises the missing-key `ValueError` and constructs
nothing. -/
theorem c2_counterexample :
    getTool exFS regNoLlm "tedx_search" =
      (.error (.valueError "Missing required 'llm_config' for tool 'tedx_search'."),
        regNoLlm) ∧
    (getTool exFS regNoLlm "tedx_search").2.tools = [] :=
  ⟨rfl, rfl⟩

/-- Witness for C2 at the concrete no-`llm_config` registry. -/
theorem c2_witness :
    createTool exFS regNoLlm "tedx_search" .tedxSearch =
      .error (.valueError "Missing required 'llm_config' for tool 'tedx_search'.") :=
  c2_no_registry_fallback.2.1 exFS regNoLlm "tedx_search" .tedxSearch exEmbRaw
    rfl rfl rfl

/-- C3 (amended): `ToolRegistry.__init__` only type-checks its shared
configs — a truthy non-instance raises `TypeError` (not `ValidationError`),
and two instances are accepted with no validation run and an empty cache —
while pydantic validation of LLM/embedder configs runs inside `get_tool`
(`_create_tool` validates each tool's own configs at first request,
propagating the `ValidationError`). -/
theorem c3_validation_at_request_time :
    (∀ (v : PyVal) (embArg : ConfigArg EmbedderConfig) (cfgs : StrMap (StrMap PyVal)),
        pyTruthy v = true → configTruthy embArg = true →
        ToolRegistry.make (.raw v) embArg cfgs =
          .error (.typeError "Invalid LLMConfig provided.")) ∧
    (∀ (l : LLMConfig) (e : EmbedderConfig) (cfgs : StrMap (StrMap PyVal)),
        ToolRegistry.make (.inst l) (.inst e) cfgs = .ok ⟨l, e, cfgs, [], 0⟩) ∧
    (∀ (fs : FS) (r : ToolRegistry) (n : String) (tc : ToolClass) (ec lc : PyVal)
        (err : PyErr),
        (smFindD r.tool_configs n []).isEmpty = false →
        cfgGet (smFindD r.tool_configs n []) "embedder_config" = some ec →
        cfgGet (smFindD r.tool_configs n []) "llm_config" = some lc →
        validateEmbedder ec = .error err →
        createTool fs r n tc = .error err) ∧
    (∀ (fs : FS) (r : ToolRegistry) (n : String) (tc : ToolClass) (ec lc : PyVal)
        (emb : EmbedderConfig) (err : PyErr),
        (smFindD r.tool_configs n []).isEmpty = false →
        cfgGet (smFindD r.tool_configs n []) "embedder_config" = some ec →
        cfgGet (smFindD r.tool_configs n []) "llm_config" = some lc →
        validateEmbedder ec = .ok emb →
        validateLLM lc = .error err →
        createTool fs r n tc = .error err) := by
  refine ⟨?_, ?_, ?_, ?_⟩
  · intro v embArg cfgs hv he
    cases embArg with
    | inst e => simp [ToolRegistry.make, configTruthy, hv]
    | raw w =>
      have he' : pyTruthy w = true := he
      simp [ToolRegistry.make, configTruthy, hv, he']
  · intro l e cfgs
    rfl
  · intro fs r n tc ec lc err h1 h2 h3 h4
    simp [createTool, h1, h2, h3, h4]
  · intro fs r n tc ec lc emb err h1 h2 h3 h4 h5
    simp [createTool, h1, h2, h3, h4, h5]

/-- Counterexample to C3 as stated: constructing the registry from a raw LLM
mapping missing `model` raises `TypeError`, not `ValidationError`; and a
`get_tool` call is what performs the first pydantic validation of a tool's
LLM config — here raising the missing-`model` `ValidationError` at request
time. -/
theorem c3_counterexample :
    ToolRegistry.make (.raw llmRawNoModel) (.inst exEmb) [] =
      .error (.typeError "Invalid LLMConfig provided.") ∧
    getTool exFS regBadLlm "sdg_align" =
      (.error (.validationError "model: field required"), regBadLlm) :=
  ⟨rfl, rfl⟩

/-- Witness for C3 at the concrete raw mapping missing `model`. -/
theorem c3_witness :
    ToolRegistry.make (.raw llmRawNoModel) (.inst exEmb) [] =
      .error (.typeError "Invalid LLMConfig provided.") :=
  c3_validation_at_request_time.1 llmRawNoModel (.inst exEmb) [] rfl rfl

/-- C8 (amended): `TEDxSlugTool.run` normalizes the slug by lower-casing
only (the source applies no trim), performs a direct index lookup, returns
the formatted record on a hit and otherwise a message carrying the literal
substring `"No data found for slug '<slug>'"` built from the original
slug; in particular `run("nonexistent-slug")` contains
`"No data found for slug 'nonexistent-slug'"`. -/
theorem c8_slug_lookup :
    (∀ (csv : StrMap Record) (s : String) (entry : Record),
        smFind? csv (pyLower s) = some entry →
        slugRun csv s =
          "Final Answer: TEDx Talk Details for slug '" ++ s ++ "':\n" ++
            formatSlugEntry entry) ∧
    (∀ (csv : StrMap Record) (s : String),
        smFind? csv (pyLower s) = none →
        slugRun csv s =
          "No data found for slug '" ++ s ++ "'. Please ensure the slug is correct.") ∧
    slugRun [] "nonexistent-slug" =
      "No data found for slug 'nonexistent-slug'. Please ensure the slug is correct." ∧
    strContains (slugRun [] "nonexistent-slug")
      "No data found for slug 'nonexistent-slug'" := by
  refine ⟨?_, ?_, rfl, by decide⟩
  · intro csv s entry h
    simp [slugRun, h]
  · intro csv s h
    simp [slugRun, h]

/-- Counterexample to C8 as stated: the claim's trim step does not happen.
For the slug `" ABC"` the trimmed-and-lowered key `"abc"` IS in the index,
yet `run` lower-cases only (`" abc"`), misses, and returns the no-data
message. -/
theorem c8_counterexample :
    slugRun [("abc", exRow)] " ABC" =
      "No data found for slug ' ABC'. Please ensure the slug is correct." ∧
    pyLower (pyStrip " ABC") = "abc" ∧
    smFind? [("abc", exRow)] "abc" = some exRow :=
  ⟨rfl, rfl, rfl⟩

/-- Witness for C8: a hit through the lower-case-only normalization. -/
theorem c8_witness :
    slugRun [("abc", exRow)] "ABC" =
      "Final Answer: TEDx Talk Details for slug 'ABC':\n" ++ formatSlugEntry exRow :=
  c8_slug_lookup.1 [("abc", exRow)] "ABC" exRow rfl

/-- C9 (amended): `extract_query_string` is total — it returns a string for
every input and never raises. A plain string comes back trimmed; for a dict
it takes the first TRUTHY value along `search_query`, `query`, `q` (falsy
values such as `""`, `0` or `None` are skipped by the `or`-chain, an absent
`q` defaults to `""`), returning it trimmed when it is a string and `""`
when it is not; any other input returns `str(input).strip()`. -/
theorem c9_extract_query_string_total :
    (∀ s, extract_query_string (.str s) = pyStrip s) ∧
    (∀ (d : StrMap PyVal) (s : String),
        queryChain d = .str s → extract_query_string (.dict d) = pyStrip s) ∧
    (∀ d : StrMap PyVal, (∀ s, queryChain d ≠ .str s) →
        extract_query_string (.dict d) = "") ∧
    (∀ d : StrMap PyVal, pyTruthy (smFindD d "search_query" .pyNone) = false →
        queryChain d =
          pyOr (smFindD d "query" .pyNone) (smFindD d "q" (.str ""))) ∧
    (∀ dec : Dec, extract_query_string (.num dec) = pyStrip (pyStr (.num dec))) ∧
    (∀ b : Bool, extract_query_string (.pyBool b) = pyStrip (pyStr (.pyBool b))) ∧
    extract_query_string .pyNone = pyStrip (pyStr .pyNone) ∧
    (∀ l : List PyVal, extract_query_string (.list l) = pyStrip (pyStr (.list l))) := by
  refine ⟨fun s => rfl, ?_, ?_, ?_, fun dec => rfl, fun b => rfl, rfl, fun l => rfl⟩
  · intro d s h
    simp [extract_query_string, h]
  · intro d h
    cases hq : queryChain d with
    | str s => exact absurd hq (h s)
    | num dec => simp [extract_query_string, hq]
    | pyBool b => simp [extract_query_string, hq]
    | pyNone => simp [extract_query_string, hq]
    | dict d2 => simp [extract_query_string, hq]
    | list l => simp [extract_query_string, hq]
  · intro d h
    simp [queryChain, pyOr, h]

/-- The dict input on which the code and the claim's first-present-key rule
disagree: `search_query` is present but falsy (`0`), so the code's
`or`-chain skips to `query`. -/
def c9Input : PyVal := .dict [("search_query", .num ⟨0, 0⟩), ("query", .str "hello")]

/-- Counterexample to C9 as stated: on `c9Input` the first available key's
value (`0` under `search_query`) is not a string, so the claimed behaviour
returns `""` — but the code returns `"hello"` from the `query` key. -/
theorem c9_counterexample :
    extract_query_string c9Input = "hello" ∧
    claimedExtractQueryString c9Input = "" ∧
    ("hello" : String) ≠ "" :=
  ⟨rfl, rfl, by decide⟩

/-- Witness for C9: a dict whose chain selects a non-string truthy value
yields the empty string. -/
theorem c9_witness :
    extract_query_string (.dict [("q", .num ⟨1, 0⟩)]) = "" :=
  c9_extract_query_string_total.2.2.1 [("q", .num ⟨1, 0⟩)]
    (fun _ h => PyVal.noConfusion h)

end TedxSDG
